import Mathlib

/-!
Verification of the custom-arbitrage core against its specification.

The definitions below are a shallow embedding of `src/arbitrage/calculator.py`
(class `SpreadCalculator`) and `src/arbitrage/engine.py` (class
`ArbitrageEngine`).  Python floats are modelled as rationals; a Python
statement that can raise is modelled in the `Except PyErr` monad, so a raised
`ZeroDivisionError` / `IndexError` / `TypeError` is an explicit `.error`
value rather than an out-of-band event.  External collaborators (the exchange
gateway and the database) are modelled as oracles passed in as functions, per
the specification which excludes them from the core.
-/

deriving instance DecidableEq for Except

namespace Arbitrage

/-- Python runtime errors that the embedded code paths can raise.
`gatewayError` stands for any exception raised by an external collaborator
call (order-book fetch, minimum-trade-amount lookup); the engine's handlers
catch all exception types alike, so one constructor suffices for them. -/
inductive PyErr where
  | zeroDivisionError
  | indexError
  | typeError
  | valueError
  | gatewayError
  deriving DecidableEq

/-- Result triple `(weighted_avg_price, actual_volume_coins, actual_volume_usdt)`
returned by the four weighted-price helpers in `calculator.py`. -/
structure WalkResult where
  weighted_price : ℚ
  filled_quantity : ℚ
  filled_notional : ℚ
  deriving DecidableEq

/-- The `0.0, 0.0, 0.0` triple the helpers return on empty input or a zero fill. -/
def zeroWalk : WalkResult := ⟨0, 0, 0⟩

/-- The `for price, coin_volume in asks:` loop of
`SpreadCalculator.calculate_weighted_spot_ask` (calculator.py lines 72-88),
accumulating `total_cost` and `total_coins`.  The partial-level branch divides
`remaining_usdt / price`, which in Python raises `ZeroDivisionError` when
`price = 0`. -/
def walkNotionalLoop : List (ℚ × ℚ) → ℚ → ℚ → ℚ → Except PyErr (ℚ × ℚ)
  | [], _, total_cost, total_coins => .ok (total_cost, total_coins)
  | (price, coin_volume) :: rest, target, total_cost, total_coins =>
    let usdt_volume := price * coin_volume
    if total_cost + usdt_volume ≤ target then
      walkNotionalLoop rest target (total_cost + usdt_volume) (total_coins + coin_volume)
    else
      if price = 0 then .error .zeroDivisionError
      else .ok (total_cost + (target - total_cost), total_coins + (target - total_cost) / price)

/-- `SpreadCalculator.calculate_weighted_spot_ask(asks, target_volume_usdt)`
(calculator.py lines 58-97): empty `asks` or a zero total coin fill yields the
zero triple, otherwise the depth-weighted average price with the accumulated
fills. -/
def calculate_weighted_spot_ask (asks : List (ℚ × ℚ)) (target_volume_usdt : ℚ) :
    Except PyErr WalkResult :=
  if asks = [] then .ok zeroWalk
  else
    match walkNotionalLoop asks target_volume_usdt 0 0 with
    | .error e => .error e
    | .ok (total_cost, total_coins) =>
      if total_coins = 0 then .ok zeroWalk
      else .ok ⟨total_cost / total_coins, total_coins, total_cost⟩

/-- The `for price, coin_volume in bids:` loop shared verbatim by
`calculate_weighted_futures_bid`, `calculate_weighted_spot_bid` and
`calculate_weighted_futures_ask` (calculator.py lines 116-127, 155-166,
194-205): consume whole levels while the coin target is not exceeded, then a
fractional quantity that exactly reaches the target.  No division occurs in
this loop, so it cannot raise. -/
def walkQuantityLoop : List (ℚ × ℚ) → ℚ → ℚ → ℚ → ℚ × ℚ
  | [], _, total_cost, total_coins => (total_cost, total_coins)
  | (price, coin_volume) :: rest, target, total_cost, total_coins =>
    if total_coins + coin_volume ≤ target then
      walkQuantityLoop rest target (total_cost + price * coin_volume) (total_coins + coin_volume)
    else
      (total_cost + (target - total_coins) * price, total_coins + (target - total_coins))

/-- Common body of the three by-quantity helpers of `SpreadCalculator`
(their source bodies are verbatim copies of one another): empty levels or a
zero coin fill yields the zero triple, otherwise the weighted average. -/
def calcWeightedByQuantity (levels : List (ℚ × ℚ)) (target_coins : ℚ) : WalkResult :=
  if levels = [] then zeroWalk
  else
    match walkQuantityLoop levels target_coins 0 0 with
    | (total_cost, total_coins) =>
      if total_coins = 0 then zeroWalk
      else ⟨total_cost / total_coins, total_coins, total_cost⟩

/-- `SpreadCalculator.calculate_weighted_futures_bid` (calculator.py lines 99-136). -/
def calculate_weighted_futures_bid (bids : List (ℚ × ℚ)) (target_coins : ℚ) : WalkResult :=
  calcWeightedByQuantity bids target_coins

/-- `SpreadCalculator.calculate_weighted_spot_bid` (calculator.py lines 138-175). -/
def calculate_weighted_spot_bid (bids : List (ℚ × ℚ)) (target_coins : ℚ) : WalkResult :=
  calcWeightedByQuantity bids target_coins

/-- `SpreadCalculator.calculate_weighted_futures_ask` (calculator.py lines 177-214). -/
def calculate_weighted_futures_ask (asks : List (ℚ × ℚ)) (target_coins : ℚ) : WalkResult :=
  calcWeightedByQuantity asks target_coins

/-- An order book as the calculator consumes it: `order_book['asks']` and
`order_book['bids']`, each a list of `[price, volume]` pairs. -/
structure OrderBook where
  asks : List (ℚ × ℚ)
  bids : List (ℚ × ℚ)
  deriving DecidableEq

/-- `levels[0][0]`: Python raises `IndexError` on an empty list. -/
def bestPrice : List (ℚ × ℚ) → Except PyErr ℚ
  | [] => .error .indexError
  | (price, _) :: _ => .ok price

/-- The result dictionary built by `SpreadCalculator.calculate_entry_spread`
(calculator.py lines 269-283), field for field. -/
structure EntryData where
  entry_spread : ℚ
  exit_spread : ℚ
  spot_best_ask : ℚ
  spot_best_bid : ℚ
  futures_best_ask : ℚ
  futures_best_bid : ℚ
  spot_weighted_ask : ℚ
  futures_weighted_bid : ℚ
  spot_weighted_bid : ℚ
  futures_weighted_ask : ℚ
  tradable_volume_coins : ℚ
  tradable_volume_usdt : ℚ
  trade_opportunity : Bool
  deriving DecidableEq

/-- `SpreadCalculator.calculate_entry_spread` (calculator.py lines 216-287).
`spread_in` is the configured threshold (`self.spread_in`); the caller passes
the target notional explicitly (the Python default `None` makes the engine's
two-argument call use `self.lot_min`).  The evaluation order mirrors the
source: the four best-price subscripts first (each an `IndexError` on an empty
side), then the four weighted walks, then the entry-spread division by
`spot_weighted_ask` (line 261) and the exit-spread division by
`futures_weighted_ask` (line 264) - each a `ZeroDivisionError` when the
divisor is zero. -/
def calculate_entry_spread (spread_in : ℚ) (spot_order_book futures_order_book : OrderBook)
    (target_volume_usdt : ℚ) : Except PyErr EntryData := do
  let spot_best_ask ← bestPrice spot_order_book.asks
  let spot_best_bid ← bestPrice spot_order_book.bids
  let futures_best_ask ← bestPrice futures_order_book.asks
  let futures_best_bid ← bestPrice futures_order_book.bids
  let sa ← calculate_weighted_spot_ask spot_order_book.asks target_volume_usdt
  let fb := calculate_weighted_futures_bid futures_order_book.bids sa.filled_quantity
  let fa := calculate_weighted_futures_ask futures_order_book.asks sa.filled_quantity
  let sb := calculate_weighted_spot_bid spot_order_book.bids sa.filled_quantity
  if sa.weighted_price = 0 then .error .zeroDivisionError
  else
    let entry_spread := (fb.weighted_price - sa.weighted_price) / sa.weighted_price * 100
    if fa.weighted_price = 0 then .error .zeroDivisionError
    else
      let exit_spread := (sb.weighted_price - fa.weighted_price) / fa.weighted_price * 100
      .ok { entry_spread := entry_spread
            exit_spread := exit_spread
            spot_best_ask := spot_best_ask
            spot_best_bid := spot_best_bid
            futures_best_ask := futures_best_ask
            futures_best_bid := futures_best_bid
            spot_weighted_ask := sa.weighted_price
            futures_weighted_bid := fb.weighted_price
            spot_weighted_bid := sb.weighted_price
            futures_weighted_ask := fa.weighted_price
            tradable_volume_coins := sa.filled_quantity
            tradable_volume_usdt := sa.filled_notional
            trade_opportunity := decide (spread_in < entry_spread) }

/-- The result dictionary built by `SpreadCalculator.calculate_exit_spread`
(calculator.py lines 321-329), field for field. -/
structure ExitData where
  exit_spread : ℚ
  spot_weighted_bid : ℚ
  futures_weighted_ask : ℚ
  tradable_volume_coins : ℚ
  spot_volume_usdt : ℚ
  futures_volume_usdt : ℚ
  close_opportunity : Bool
  deriving DecidableEq

/-- `SpreadCalculator.calculate_exit_spread` (calculator.py lines 289-333):
spot-bid and futures-ask walks at `position_coins`, the exit-spread formula
(a `ZeroDivisionError` when the futures weighted ask is zero), the threshold
comparison against `spread_out`, and the min over the two legs' fills. -/
def calculate_exit_spread (spread_out : ℚ) (spot_order_book futures_order_book : OrderBook)
    (position_coins : ℚ) : Except PyErr ExitData :=
  let s := calculate_weighted_spot_bid spot_order_book.bids position_coins
  let f := calculate_weighted_futures_ask futures_order_book.asks position_coins
  if f.weighted_price = 0 then .error .zeroDivisionError
  else
    let exit_spread := (s.weighted_price - f.weighted_price) / f.weighted_price * 100
    .ok { exit_spread := exit_spread
          spot_weighted_bid := s.weighted_price
          futures_weighted_ask := f.weighted_price
          tradable_volume_coins := min s.filled_quantity f.filled_quantity
          spot_volume_usdt := s.filled_notional
          futures_volume_usdt := f.filled_notional
          close_opportunity := decide (spread_out < exit_spread) }

/-- `SpreadCalculator.should_close_position` (calculator.py lines 504-549).
The source computes the exit data itself from the two books, then decides:
no close opportunity gives `(False, 0.0)`; otherwise close
`min(position_coins, tradable_volume_coins)`, escalated to the whole position
when the remainder would fall below `min_trade_amount`, and `(False, 0.0)`
when the resulting amount is not positive.  The `position_id` argument is
only logged and is omitted here. -/
def should_close_position (spread_out : ℚ) (position_coins : ℚ)
    (spot_order_book futures_order_book : OrderBook) (min_trade_amount : ℚ) :
    Except PyErr (Bool × ℚ × ExitData) := do
  let exit_data ← calculate_exit_spread spread_out spot_order_book futures_order_book position_coins
  if exit_data.close_opportunity = false then
    .ok (false, 0, exit_data)
  else
    let c0 := min position_coins exit_data.tradable_volume_coins
    let coins_to_close := if position_coins - c0 < min_trade_amount then position_coins else c0
    if coins_to_close ≤ 0 then .ok (false, 0, exit_data)
    else .ok (true, coins_to_close, exit_data)

/-- Total notional of a level list, `sum(price * volume)` over the levels:
the most the by-notional walk can reach. -/
def levelsNotional (levels : List (ℚ × ℚ)) : ℚ :=
  (levels.map fun l => l.1 * l.2).sum

/-- Status values stored in the `positions` table (`'open'`,
`'partially_closed'`, `'closed'`). -/
inductive PositionStatus where
  | openStatus
  | partiallyClosed
  | closed
  deriving DecidableEq

/-- A row of the `positions` table as `_execute_exit_trade` reads and writes
it (engine.py lines 503-561).  Timestamps and order-id lists are omitted; the
`pnl_usdt` column is nullable (`COALESCE(pnl_usdt, 0)` in the source), hence
`Option`. -/
structure PositionRow where
  position_id : String
  symbol : String
  status : PositionStatus
  spot_volume_coins : ℚ
  futures_volume_coins : ℚ
  spot_volume_usdt : ℚ
  futures_volume_usdt : ℚ
  remaining_spot_coins : ℚ
  remaining_futures_coins : ℚ
  pnl_usdt : Option ℚ
  deriving DecidableEq

/-- The `position_adjustments` row inserted by `_execute_exit_trade`
(engine.py lines 564-579); order ids and timestamp omitted. -/
structure PositionAdjustment where
  position_id : String
  adjustment_type : String
  exit_spread : ℚ
  spot_volume_coins : ℚ
  futures_volume_coins : ℚ
  spot_price : ℚ
  futures_price : ℚ
  pnl_usdt : ℚ
  deriving DecidableEq

/-- `ArbitrageEngine._execute_exit_trade` (engine.py lines 487-611), the
ledger part.  The read of the position row is the `position` argument
(`None` when the id is missing, upon which the source logs and returns with
no mutation); order placement on the gateway is external and elided.  The
source performs no status or remaining-coins validation of any kind: it
computes the PnL (a `ZeroDivisionError` when an entered leg volume is zero),
decrements both remaining columns by `coins_to_close`, sets the status from
the sign of the new remaining spot coins, accumulates `pnl_usdt` and appends
a `'partial_close'` adjustment.  The returned pair is the updated row and the
inserted adjustment. -/
def execute_exit_trade (position : Option PositionRow)
    (coins_to_close spot_avg_price futures_avg_price exit_spread_val : ℚ) :
    Except PyErr (Option (PositionRow × PositionAdjustment)) :=
  match position with
  | none => .ok none
  | some p =>
    if p.spot_volume_coins = 0 ∨ p.futures_volume_coins = 0 then .error .zeroDivisionError
    else
      let spot_close_usdt := coins_to_close * spot_avg_price
      let futures_close_usdt := coins_to_close * futures_avg_price
      let initial_spot_cost := p.spot_volume_usdt / p.spot_volume_coins * coins_to_close
      let initial_futures_value := p.futures_volume_usdt / p.futures_volume_coins * coins_to_close
      let pnl := (spot_close_usdt - initial_spot_cost) + (initial_futures_value - futures_close_usdt)
      let new_remaining_spot := p.remaining_spot_coins - coins_to_close
      let new_remaining_futures := p.remaining_futures_coins - coins_to_close
      let new_status :=
        if new_remaining_spot ≤ 0 then PositionStatus.closed else PositionStatus.partiallyClosed
      .ok (some
        ({ p with
            status := new_status
            remaining_spot_coins := new_remaining_spot
            remaining_futures_coins := new_remaining_futures
            pnl_usdt := some (p.pnl_usdt.getD 0 + pnl) },
          { position_id := p.position_id
            adjustment_type := "partial_close"
            exit_spread := exit_spread_val
            spot_volume_coins := coins_to_close
            futures_volume_coins := coins_to_close
            spot_price := spot_avg_price
            futures_price := futures_avg_price
            pnl_usdt := pnl }))

/-- A Python value, for modelling the engine's dynamically checked calls into
the calculator.  Python verifies the argument list of a call against the
callee's signature at run time; a mismatch raises `TypeError`. -/
inductive PyVal where
  | num (q : ℚ)
  | str (s : String)
  | book (b : OrderBook)
  | exitDict (e : ExitData)
  | bool (b : Bool)
  | tuple3 (a b c : PyVal)
  deriving DecidableEq

/-- Dynamic call of `SpreadCalculator.calculate_exit_spread`: its signature
after `self` is `(spot_order_book, futures_order_book, position_coins)`,
three required positional parameters; any other argument list raises
`TypeError`. -/
def calculate_exit_spread_call (spread_out : ℚ) : List PyVal → Except PyErr ExitData
  | [.book sob, .book fob, .num position_coins] =>
    calculate_exit_spread spread_out sob fob position_coins
  | _ => .error .typeError

/-- Dynamic call of `SpreadCalculator.should_close_position`: its signature
after `self` is `(position_id, position_coins, spot_order_book,
futures_order_book, min_trade_amount)`, five required positional parameters;
any other argument list raises `TypeError`.  A successful call returns the
3-tuple `(should_close, coins_to_close, exit_spread_data)`. -/
def should_close_position_call (spread_out : ℚ) : List PyVal → Except PyErr PyVal
  | [.str _, .num position_coins, .book sob, .book fob, .num min_trade_amount] =>
    (should_close_position spread_out position_coins sob fob min_trade_amount).map
      fun r => .tuple3 (.bool r.1) (.num r.2.1) (.exitDict r.2.2)
  | _ => .error .typeError

/-- Python tuple unpacking into two names: a 3-tuple raises `ValueError`
(too many values to unpack), a non-tuple raises `TypeError`. -/
def unpackPair : PyVal → Except PyErr (PyVal × PyVal)
  | .tuple3 _ _ _ => .error .valueError
  | _ => .error .typeError

/-- One trading pair of the configured `TRADING_PAIRS` list (engine.py lines
130-135). -/
structure PairConfig where
  symbol : String
  spot_exchange : String
  futures_exchange : String
  spot_symbol : String
  futures_symbol : String
  deriving DecidableEq

/-- What the body of the per-pair loop of `_check_arbitrage_opportunities`
does after the spread computation (engine.py lines 177-199): nothing when
there is no opportunity; on an opportunity with auto-trade off, only the
notification; with auto-trade on, `_execute_arbitrage_trade` when no live
position exists for the symbol, else `_check_position_increase`. -/
inductive PairAction where
  | noOpportunity (spread_data : EntryData)
  | opportunityNotTraded (spread_data : EntryData)
  | opportunityOpened (spread_data : EntryData)
  | opportunityIncreaseChecked (spread_data : EntryData)
  deriving DecidableEq

/-- Body of the per-pair loop of `ArbitrageEngine._check_arbitrage_opportunities`
(engine.py lines 137-199), the part inside the per-pair `try`.  `fetch` is
the gateway oracle `get_order_book(exchange, symbol)`; `has_open_position`
is `_has_open_position` (which swallows its own database errors and returns a
bool).  The two `store_*` persistence calls and the notification send are
side effects on external collaborators modelled as succeeding; were they to
raise, the same per-pair handler would catch it.  `_execute_arbitrage_trade`
and `_check_position_increase` catch their own exceptions, so nothing after
the opportunity decision can escape. -/
def process_pair (fetch : String → String → Except PyErr OrderBook)
    (has_open_position : String → Bool) (auto_trade : Bool) (spread_in lot_min : ℚ)
    (pc : PairConfig) : Except PyErr PairAction := do
  let spot_order_book ← fetch pc.spot_exchange pc.spot_symbol
  let futures_order_book ← fetch pc.futures_exchange pc.futures_symbol
  let spread_data ← calculate_entry_spread spread_in spot_order_book futures_order_book lot_min
  if spread_data.trade_opportunity then
    if auto_trade then
      if has_open_position pc.symbol then .ok (.opportunityIncreaseChecked spread_data)
      else .ok (.opportunityOpened spread_data)
    else .ok (.opportunityNotTraded spread_data)
  else .ok (.noOpportunity spread_data)

/-- Outcome recorded for a pair in one cycle. -/
inductive PairOutcome where
  | errored (e : PyErr)
  | acted (a : PairAction)
  deriving DecidableEq

/-- `ArbitrageEngine._check_arbitrage_opportunities` (engine.py lines
128-202): a `for` loop over the configured pairs whose whole body is inside a
`try/except` - an exception for one pair is logged and the loop continues, so
every pair produces an outcome. -/
def check_arbitrage_opportunities (fetch : String → String → Except PyErr OrderBook)
    (has_open_position : String → Bool) (auto_trade : Bool) (spread_in lot_min : ℚ)
    (pairs : List PairConfig) : List (String × PairOutcome) :=
  pairs.map fun pc =>
    (pc.symbol,
      match process_pair fetch has_open_position auto_trade spread_in lot_min pc with
      | .ok a => .acted a
      | .error e => .errored e)

/-- The columns of an open-position row that `_check_exit_opportunities`
reads (engine.py lines 222-227). -/
structure OpenPositionInfo where
  position_id : String
  symbol : String
  remaining_spot_coins : ℚ
  spot_exchange : String
  futures_exchange : String
  deriving DecidableEq

/-- The decision the exit loop would record for a position, were it reached. -/
structure ExitEval where
  should_close : Bool
  coins_to_close : ℚ
  exit_executed : Bool
  deriving DecidableEq

/-- Body of the per-position loop of `ArbitrageEngine._check_exit_opportunities`
(engine.py lines 222-281).  A missing pair configuration logs a warning and
`continue`s (`.ok none`).  Otherwise the books are fetched with the
position's exchanges and the configuration's symbols, the minimum trade
amount is looked up, and then line 258 calls `calculate_exit_spread` with
only the two order books - two arguments for three required parameters -
and line 263 calls `should_close_position` with `(position_id,
remaining_coins, exit_data, min_trade_amount)` - four arguments for five
required parameters - unpacking the 3-tuple result into two names.  Both
dynamic calls are modelled exactly; the first already raises `TypeError`.
On a true decision the source logs, runs `_execute_exit_trade` when
auto-trade is on (that method catches its own exceptions) and notifies. -/
def process_position (fetch : String → String → Except PyErr OrderBook)
    (get_min_trade_amount : String → String → Except PyErr ℚ)
    (auto_trade : Bool) (spread_out : ℚ) (pairs : List PairConfig)
    (pos : OpenPositionInfo) : Except PyErr (Option ExitEval) := do
  match pairs.find? fun p => p.symbol == pos.symbol with
  | none => .ok none
  | some pc => do
    let spot_order_book ← fetch pos.spot_exchange pc.spot_symbol
    let futures_order_book ← fetch pos.futures_exchange pc.futures_symbol
    let min_trade_amount ← get_min_trade_amount pos.spot_exchange pc.spot_symbol
    let exit_data ← calculate_exit_spread_call spread_out
      [.book spot_order_book, .book futures_order_book]
    let sc ← should_close_position_call spread_out
      [.str pos.position_id, .num pos.remaining_spot_coins, .exitDict exit_data,
        .num min_trade_amount]
    let unpacked ← unpackPair sc
    match unpacked with
    | (.bool should_close, .num coins_to_close) =>
      .ok (some ⟨should_close, coins_to_close, should_close && auto_trade⟩)
    | _ => .error .typeError

/-- Outcome recorded for a position in one cycle. -/
inductive PositionOutcome where
  | noConfig
  | evaluated (v : ExitEval)
  | errored (e : PyErr)
  deriving DecidableEq

/-- `ArbitrageEngine._check_exit_opportunities` (engine.py lines 204-284):
the `try/except` wraps the whole `for` loop over the open positions, so the
first exception raised while processing a position aborts the loop - later
positions are not attempted in that cycle.  The returned list is the trace
of attempted positions with their outcomes, in order. -/
def check_exit_opportunities (fetch : String → String → Except PyErr OrderBook)
    (get_min_trade_amount : String → String → Except PyErr ℚ)
    (auto_trade : Bool) (spread_out : ℚ) (pairs : List PairConfig) :
    List OpenPositionInfo → List (String × PositionOutcome)
  | [] => []
  | pos :: rest =>
    match process_position fetch get_min_trade_amount auto_trade spread_out pairs pos with
    | .ok none =>
      (pos.position_id, .noConfig) ::
        check_exit_opportunities fetch get_min_trade_amount auto_trade spread_out pairs rest
    | .ok (some v) =>
      (pos.position_id, .evaluated v) ::
        check_exit_opportunities fetch get_min_trade_amount auto_trade spread_out pairs rest
    | .error e => [(pos.position_id, .errored e)]

/-- Decision rule of `should_close` as worded in the specification (section
4.3), over an already-computed exit result: not a close opportunity gives
`(false, 0)`; otherwise take the minimum of the remaining coins and the
tradable volume, escalate to the whole remainder when what would be left is
below the minimum trade amount, and give `(false, 0)` when the amount is not
positive. -/
def should_close_decision_spec (remaining_spot_coins tradable_volume min_trade_amount : ℚ)
    (close_opportunity : Bool) : Bool × ℚ :=
  if close_opportunity = false then (false, 0)
  else
    let c0 := min remaining_spot_coins tradable_volume
    let coins_to_close :=
      if remaining_spot_coins - c0 < min_trade_amount then remaining_spot_coins else c0
    if coins_to_close ≤ 0 then (false, 0) else (true, coins_to_close)

/-! ### A concrete cycle scenario

Two configured pairs on two exchanges; exchange `exA` is down, exchange
`exB` serves books.  Used to exercise the failure-isolation behaviour of the
two cycle loops. -/

/-- Order-book fetch oracle: every call to exchange `exA` raises; exchange
`exB` serves a futures book for the symbol `B/U:F` and a spot book
otherwise. -/
def fetchScenario : String → String → Except PyErr OrderBook := fun exchange symbol =>
  if exchange = "exA" then .error .gatewayError
  else if symbol = "B/U:F" then .ok ⟨[(121, 10)], [(120, 10)]⟩
  else .ok ⟨[(100, 10)], [(99, 10)]⟩

/-- Minimum-trade-amount oracle that always answers `1`. -/
def getMinScenario : String → String → Except PyErr ℚ := fun _ _ => .ok 1

/-- Trading pair `A`, hosted on the failing exchange `exA`. -/
def pairA : PairConfig := ⟨"A", "exA", "exA", "A/U", "A/U:F"⟩

/-- Trading pair `B`, hosted on the healthy exchange `exB`. -/
def pairB : PairConfig := ⟨"B", "exB", "exB", "B/U", "B/U:F"⟩

/-- An open position on pair `A` (its book fetches fail). -/
def posP1 : OpenPositionInfo := ⟨"P1", "A", 10, "exA", "exA"⟩

/-- An open position on pair `B` (its book fetches succeed). -/
def posP2 : OpenPositionInfo := ⟨"P2", "B", 10, "exB", "exB"⟩

/-! ## Walk lemmas -/

/-- The by-quantity walk result always satisfies
`filled_notional = weighted_price * filled_quantity`: the weighted price is
defined as notional over quantity, and the zero-fill branches return the zero
triple. -/
theorem calcWeightedByQuantity_notional_eq (levels : List (ℚ × ℚ)) (target : ℚ) :
    (calcWeightedByQuantity levels target).filled_notional =
      (calcWeightedByQuantity levels target).weighted_price *
        (calcWeightedByQuantity levels target).filled_quantity := by
  unfold calcWeightedByQuantity
  rcases hw : walkQuantityLoop levels target 0 0 with ⟨c, q⟩
  by_cases h : levels = []
  · simp [h, zeroWalk]
  · by_cases hq : q = 0
    · simp [h, hw, hq, zeroWalk]
    · simp only [h, if_neg, hw, hq, if_false, ite_false]
      exact (div_mul_cancel₀ c hq).symm

/-- Invariant of the by-notional loop: starting from an accumulated cost not
above the target, over levels with positive prices and quantities, the loop
raises nothing, never exceeds the target, never loses coins, and reaches the
target exactly whenever the remaining levels carry enough notional. -/
theorem walkNotionalLoop_spec (levels : List (ℚ × ℚ)) (target : ℚ) :
    ∀ total_cost total_coins, total_cost ≤ target →
      (∀ l ∈ levels, 0 < l.1 ∧ 0 < l.2) →
      ∃ c q, walkNotionalLoop levels target total_cost total_coins = .ok (c, q) ∧
        c ≤ target ∧ total_coins ≤ q ∧
        (target ≤ total_cost + levelsNotional levels → c = target) := by
  induction levels with
  | nil =>
    intro cost coins hc _
    exact ⟨cost, coins, rfl, hc, le_refl _,
      fun h => le_antisymm hc (by simpa [levelsNotional] using h)⟩
  | cons l rest ih =>
    intro cost coins hc hpos
    obtain ⟨p, v⟩ := l
    have hp : 0 < p := (hpos (p, v) (List.mem_cons_self _ _)).1
    have hv : 0 < v := (hpos (p, v) (List.mem_cons_self _ _)).2
    have hrest : ∀ l ∈ rest, 0 < l.1 ∧ 0 < l.2 := fun l hl => hpos l (List.mem_cons_of_mem _ hl)
    by_cases hfull : cost + p * v ≤ target
    · obtain ⟨c, q, heq, h1, h2, h3⟩ := ih (cost + p * v) (coins + v) hfull hrest
      refine ⟨c, q, ?_, h1, ?_, ?_⟩
      · simpa [walkNotionalLoop, hfull] using heq
      · linarith
      · intro ht
        apply h3
        simp only [levelsNotional, List.map_cons, List.sum_cons] at ht ⊢
        linarith
    · refine ⟨target, coins + (target - cost) / p, ?_, le_refl _, ?_, fun _ => rfl⟩
      · have hpz : ¬ p = 0 := ne_of_gt hp
        have harith : cost + (target - cost) = target := by ring
        simp [walkNotionalLoop, hfull, hpz, harith]
      · have hd : 0 ≤ (target - cost) / p := div_nonneg (by linarith) (le_of_lt hp)
        linarith

/-- Over a nonempty positive level list with a positive target, the
by-notional loop fills a strictly positive coin quantity. -/
theorem walkNotionalLoop_pos_fill (p v : ℚ) (rest : List (ℚ × ℚ)) (target : ℚ)
    (hpos : ∀ l ∈ (p, v) :: rest, 0 < l.1 ∧ 0 < l.2) (ht : 0 < target) :
    ∃ c q, walkNotionalLoop ((p, v) :: rest) target 0 0 = .ok (c, q) ∧ 0 < q ∧
      c ≤ target ∧ (target ≤ levelsNotional ((p, v) :: rest) → c = target) := by
  have hp : 0 < p := (hpos (p, v) (List.mem_cons_self _ _)).1
  have hv : 0 < v := (hpos (p, v) (List.mem_cons_self _ _)).2
  have hrest : ∀ l ∈ rest, 0 < l.1 ∧ 0 < l.2 := fun l hl => hpos l (List.mem_cons_of_mem _ hl)
  by_cases hfull : p * v ≤ target
  · obtain ⟨c, q, heq, h1, h2, h3⟩ := walkNotionalLoop_spec rest target (p * v) v hfull hrest
    refine ⟨c, q, ?_, by linarith, h1, ?_⟩
    · simp [walkNotionalLoop, hfull, heq]
    · intro ht2
      apply h3
      simp only [levelsNotional, List.map_cons, List.sum_cons] at ht2 ⊢
      linarith
  · refine ⟨target, target / p, ?_, div_pos ht hp, le_refl _, fun _ => rfl⟩
    have hpz : ¬ p = 0 := ne_of_gt hp
    simp [walkNotionalLoop, hfull, hpz]

/-! ## Claims about the weighted-price walks -/

/-- C8: for every level list with positive prices and quantities and every
positive target, the by-notional walk returns without raising and its result
satisfies `filled_notional = weighted_price * filled_quantity` exactly (the
rational model makes the floating-point tolerance zero), it fills exactly
`target_notional` whenever the target does not exceed the total reachable
notional of the levels, and the by-quantity walk's result satisfies the same
product invariant. -/
theorem walk_fill_invariants (levels : List (ℚ × ℚ)) (target : ℚ)
    (hpos : ∀ l ∈ levels, 0 < l.1 ∧ 0 < l.2) (ht : 0 < target) :
    (∃ r, calculate_weighted_spot_ask levels target = .ok r ∧
      r.filled_notional = r.weighted_price * r.filled_quantity ∧
      (target ≤ levelsNotional levels → r.filled_notional = target)) ∧
    (calcWeightedByQuantity levels target).filled_notional =
      (calcWeightedByQuantity levels target).weighted_price *
        (calcWeightedByQuantity levels target).filled_quantity := by
  refine ⟨?_, calcWeightedByQuantity_notional_eq levels target⟩
  match levels with
  | [] =>
    refine ⟨zeroWalk, by simp [calculate_weighted_spot_ask], by simp [zeroWalk], ?_⟩
    intro h
    simp only [levelsNotional, List.map_nil, List.sum_nil] at h
    exact absurd (lt_of_lt_of_le ht h) (lt_irrefl 0)
  | (p, v) :: rest =>
    obtain ⟨c, q, heq, hqpos, hle, hfill⟩ := walkNotionalLoop_pos_fill p v rest target hpos ht
    have hqz : ¬ q = 0 := ne_of_gt hqpos
    refine ⟨⟨c / q, q, c⟩, ?_, ?_, fun h => hfill h⟩
    · simp [calculate_weighted_spot_ask, heq, hqz]
    · exact (div_mul_cancel₀ c hqz).symm

/-- C7 counterexample: on the ask level list `[(100, 5)]` - a well-formed
book side - and target notional `-50 ≤ 0`, `calculate_weighted_spot_ask`
does not return the zero `WalkResult`: the partial-level branch books a
negative fractional fill of the first level, returning weighted price `100`,
filled quantity `-1/2` and filled notional `-50`. -/
theorem negative_target_walk_counterexample :
    calculate_weighted_spot_ask [(100, 5)] (-50) = .ok ⟨100, -(1/2 : ℚ), -50⟩ ∧
      (⟨100, -(1/2 : ℚ), -50⟩ : WalkResult) ≠ zeroWalk := by
  constructor
  · norm_num [calculate_weighted_spot_ask, walkNotionalLoop]
  · simp [zeroWalk]

/-- C7 (amended): over levels with positive prices and quantities, an empty
level list or a target notional equal to `0` yields the zero `WalkResult`
(the claim's `target_notional ≤ 0` fails for strictly negative targets,
which produce a negative partial fill of the first level instead). -/
theorem walk_by_notional_zero_target_zero_result (levels : List (ℚ × ℚ)) (target : ℚ)
    (hpos : ∀ l ∈ levels, 0 < l.1 ∧ 0 < l.2)
    (h : levels = [] ∨ target = 0) :
    calculate_weighted_spot_ask levels target = .ok zeroWalk := by
  rcases h with h | h
  · simp [calculate_weighted_spot_ask, h]
  · subst h
    match levels with
    | [] => simp [calculate_weighted_spot_ask]
    | (p, v) :: rest =>
      have hp : 0 < p := (hpos (p, v) (List.mem_cons_self _ _)).1
      have hv : 0 < v := (hpos (p, v) (List.mem_cons_self _ _)).2
      have hfull : ¬ (p * v ≤ (0 : ℚ)) := by
        have : 0 < p * v := mul_pos hp hv
        linarith
      have hpz : ¬ p = 0 := ne_of_gt hp
      simp [calculate_weighted_spot_ask, walkNotionalLoop, hfull, hpz]

/-- Witness for C7 (amended) at the level list `[(100, 5)]` and target `0`. -/
theorem walk_by_notional_zero_target_zero_result_witness :
    calculate_weighted_spot_ask [(100, 5)] 0 = .ok zeroWalk :=
  walk_by_notional_zero_target_zero_result [(100, 5)] 0 (by decide) (Or.inr rfl)

/-- Witness for C8 at the level list `[(100, 5)]` and target `250`. -/
theorem walk_fill_invariants_witness :
    (∃ r, calculate_weighted_spot_ask [(100, 5)] 250 = .ok r ∧
      r.filled_notional = r.weighted_price * r.filled_quantity ∧
      (250 ≤ levelsNotional [(100, 5)] → r.filled_notional = 250)) ∧
    (calcWeightedByQuantity [(100, 5)] 250).filled_notional =
      (calcWeightedByQuantity [(100, 5)] 250).weighted_price *
        (calcWeightedByQuantity [(100, 5)] 250).filled_quantity :=
  walk_fill_invariants [(100, 5)] 250 (by decide) (by decide)

/-- Helper: a successful `Except` bind factors through a successful first
computation. -/
theorem except_bind_ok {ε α β : Type} (x : Except ε α) (f : α → Except ε β) (b : β)
    (h : x >>= f = .ok b) : ∃ a, x = .ok a ∧ f a = .ok b := by
  cases x with
  | error e => simp [Bind.bind, Except.bind] at h
  | ok a => exact ⟨a, rfl, by simpa [Bind.bind, Except.bind] using h⟩

/-! ## Claims about the spread computations -/

/-- C1: contrary to the specification's edge case, a spot ask walk that fills
zero coins does not produce a result with `entry_spread = 0` and
`trade_opportunity = false`: with no ask depth at all the best-ask subscript
`asks[0][0]` raises `IndexError` before any walk, and with a zero-coin fill
(here a zero target) the entry-spread division by the zero
`spot_weighted_ask` raises `ZeroDivisionError`.  The division is not
guarded. -/
theorem entry_spread_no_ask_depth_raises :
    calculate_entry_spread 10 ⟨[], [(99, 5)]⟩ ⟨[(101, 5)], [(100, 5)]⟩ 250 =
      .error .indexError ∧
    calculate_entry_spread 10 ⟨[(100, 5)], [(99, 5)]⟩ ⟨[(101, 5)], [(100, 5)]⟩ 0 =
      .error .zeroDivisionError := by
  constructor
  · norm_num [calculate_entry_spread, bestPrice, Bind.bind, Except.bind]
  · norm_num [calculate_entry_spread, bestPrice, Bind.bind, Except.bind,
      calculate_weighted_spot_ask, walkNotionalLoop, calculate_weighted_futures_bid,
      calculate_weighted_futures_ask, calculate_weighted_spot_bid,
      calcWeightedByQuantity, walkQuantityLoop, zeroWalk]

/-- C9: whenever `calculate_exit_spread` returns (its futures weighted ask
being nonzero, else the division raises), the result carries
`exit_spread = (spot_weighted_bid - futures_weighted_ask) /
futures_weighted_ask * 100`, `close_opportunity = (exit_spread > spread_out)`
and `tradable_volume` equal to the minimum of the two by-quantity walks'
filled quantities at `position_coins`. -/
theorem exit_spread_formulas (spread_out : ℚ) (spot_order_book futures_order_book : OrderBook)
    (position_coins : ℚ)
    (hf : (calculate_weighted_futures_ask futures_order_book.asks position_coins).weighted_price
      ≠ 0) :
    ∃ e, calculate_exit_spread spread_out spot_order_book futures_order_book position_coins =
        .ok e ∧
      e.exit_spread =
        ((calculate_weighted_spot_bid spot_order_book.bids position_coins).weighted_price -
          (calculate_weighted_futures_ask futures_order_book.asks position_coins).weighted_price)
          / (calculate_weighted_futures_ask futures_order_book.asks
              position_coins).weighted_price * 100 ∧
      e.close_opportunity = decide (spread_out < e.exit_spread) ∧
      e.tradable_volume_coins =
        min (calculate_weighted_spot_bid spot_order_book.bids position_coins).filled_quantity
          (calculate_weighted_futures_ask futures_order_book.asks
            position_coins).filled_quantity := by
  simp only [calculate_exit_spread]
  rw [if_neg hf]
  exact ⟨_, rfl, rfl, rfl, rfl⟩

/-- Witness for C9: spot bids `[(120, 7)]`, futures asks `[(100, 20)]`,
position size `10`, threshold `5`. -/
theorem exit_spread_formulas_witness :
    ∃ e, calculate_exit_spread 5 ⟨[], [(120, 7)]⟩ ⟨[(100, 20)], []⟩ 10 = .ok e ∧
      e.exit_spread =
        ((calculate_weighted_spot_bid [(120, 7)] 10).weighted_price -
          (calculate_weighted_futures_ask [(100, 20)] 10).weighted_price)
          / (calculate_weighted_futures_ask [(100, 20)] 10).weighted_price * 100 ∧
      e.close_opportunity = decide ((5:ℚ) < e.exit_spread) ∧
      e.tradable_volume_coins =
        min (calculate_weighted_spot_bid [(120, 7)] 10).filled_quantity
          (calculate_weighted_futures_ask [(100, 20)] 10).filled_quantity :=
  exit_spread_formulas 5 ⟨[], [(120, 7)]⟩ ⟨[(100, 20)], []⟩ 10
    (by norm_num [calculate_weighted_futures_ask, calcWeightedByQuantity, walkQuantityLoop,
      zeroWalk])

/-- C10: the entry result's `tradable_volume_coins` and `tradable_volume_usdt`
are exactly the spot ask-walk's filled quantity and filled notional (together
with its weighted price): the futures-leg fills play no part, so the entry
tradable volume is not capped by the futures book's depth - there is no min
over the two legs, unlike the exit computation. -/
theorem entry_tradable_volume_uncapped (spread_in : ℚ)
    (spot_order_book futures_order_book : OrderBook) (target_volume_usdt : ℚ) (r : EntryData)
    (h : calculate_entry_spread spread_in spot_order_book futures_order_book
      target_volume_usdt = .ok r) :
    calculate_weighted_spot_ask spot_order_book.asks target_volume_usdt =
      .ok ⟨r.spot_weighted_ask, r.tradable_volume_coins, r.tradable_volume_usdt⟩ := by
  simp only [calculate_entry_spread] at h
  obtain ⟨sba, h1, h⟩ := except_bind_ok _ _ _ h
  obtain ⟨sbb, h2, h⟩ := except_bind_ok _ _ _ h
  obtain ⟨fba, h3, h⟩ := except_bind_ok _ _ _ h
  obtain ⟨fbb, h4, h⟩ := except_bind_ok _ _ _ h
  obtain ⟨sa, h5, h⟩ := except_bind_ok _ _ _ h
  split at h
  · exact Except.noConfusion h
  · split at h
    · exact Except.noConfusion h
    · simp only [Except.ok.injEq] at h
      subst h
      simpa using h5

/-- Witness for C10: the spot ask walk at notional `500` over asks
`[(100, 10)]` fills `5` coins, while the futures bid book `[(110, 2)]` can
absorb only `2` coins; the entry result still reports tradable volume
`5` coins / `500` USDT, uncapped by the futures leg. -/
theorem entry_tradable_volume_uncapped_witness :
    calculate_weighted_spot_ask [(100, 10)] 500 = .ok ⟨100, 5, 500⟩ ∧
      (calculate_weighted_futures_bid [(110, 2)] 5).filled_quantity = 2 ∧ (2:ℚ) < 5 := by
  refine ⟨?_, ?_, by norm_num⟩
  · have h : calculate_entry_spread 10 ⟨[(100, 10)], [(99, 10)]⟩ ⟨[(111, 10)], [(110, 2)]⟩ 500 =
        .ok ⟨10, -400/37, 100, 99, 111, 110, 100, 110, 99, 111, 5, 500, false⟩ := by
      norm_num [calculate_entry_spread, bestPrice, Bind.bind, Except.bind,
        calculate_weighted_spot_ask, walkNotionalLoop, calculate_weighted_futures_bid,
        calculate_weighted_futures_ask, calculate_weighted_spot_bid,
        calcWeightedByQuantity, walkQuantityLoop, zeroWalk]
    exact entry_tradable_volume_uncapped 10 ⟨[(100, 10)], [(99, 10)]⟩ ⟨[(111, 10)], [(110, 2)]⟩
      500 _ h
  · norm_num [calculate_weighted_futures_bid, calcWeightedByQuantity, walkQuantityLoop, zeroWalk]

/-! ## Claims about the close decision -/

/-- C6: the decision of `should_close_position` agrees with the
specification's `should_close` rule applied to the exit result the source
computes: no close opportunity gives `(false, 0)`; otherwise the minimum of
the remaining coins and the tradable volume, escalated to the whole remainder
when what would be left is below the minimum trade amount, and `(false, 0)`
when the amount is not positive.  The embedded function is pure, so the
decision is mutation-free and identical on identical inputs. -/
theorem should_close_matches_spec_decision (spread_out position_coins : ℚ)
    (spot_order_book futures_order_book : OrderBook) (min_trade_amount : ℚ)
    (b : Bool) (c : ℚ) (e : ExitData)
    (h : should_close_position spread_out position_coins spot_order_book futures_order_book
      min_trade_amount = .ok (b, c, e)) :
    (b, c) = should_close_decision_spec position_coins e.tradable_volume_coins
      min_trade_amount e.close_opportunity := by
  simp only [should_close_position] at h
  obtain ⟨exit_data, h1, h⟩ := except_bind_ok _ _ _ h
  repeat' split at h
  all_goals
    simp only [Except.ok.injEq, Prod.mk.injEq] at h
  all_goals
    obtain ⟨rfl, rfl, rfl⟩ := h
  all_goals
    simp only [should_close_decision_spec]
  all_goals
    split_ifs
  all_goals
    simp_all

/-- Witness for C6, realising the specification's example: remaining `10`,
minimum trade amount `5`, a close opportunity with tradable volume `7`
(spot bids `[(120, 7)]`, futures asks `[(100, 20)]`, threshold `5`): the
decision is `(true, 10)` - escalated to the whole position to avoid a
3-coin dust remainder. -/
theorem should_close_matches_spec_decision_witness :
    should_close_position 5 10 ⟨[], [(120, 7)]⟩ ⟨[(100, 20)], []⟩ 5 =
      .ok (true, 10, ⟨20, 120, 100, 7, 840, 1000, true⟩) ∧
    (true, (10:ℚ)) = should_close_decision_spec 10 7 5 true := by
  have h : should_close_position 5 10 ⟨[], [(120, 7)]⟩ ⟨[(100, 20)], []⟩ 5 =
      .ok (true, 10, ⟨20, 120, 100, 7, 840, 1000, true⟩) := by
    norm_num [should_close_position, calculate_exit_spread, Bind.bind, Except.bind,
      calculate_weighted_spot_bid, calculate_weighted_futures_ask,
      calcWeightedByQuantity, walkQuantityLoop, zeroWalk]
  exact ⟨h, should_close_matches_spec_decision 5 10 ⟨[], [(120, 7)]⟩ ⟨[(100, 20)], []⟩ 5
    true 10 ⟨20, 120, 100, 7, 840, 1000, true⟩ h⟩

/-! ## Claims about the position ledger -/

/-- C2: contrary to the specification, `_execute_exit_trade` performs no
`InvalidState` check whatsoever: applied to a fully closed position
(status `closed`, zero remaining coins) with `coins_to_close = 4`, it
succeeds, decrements the remaining spot coins to `-4`, and accumulates the
PnL again, instead of failing. -/
theorem exit_after_full_close_not_rejected :
    ∃ pr adj,
      execute_exit_trade
        (some { position_id := "pos-1", symbol := "BTC/USDT",
                status := PositionStatus.closed,
                spot_volume_coins := 10, futures_volume_coins := 10,
                spot_volume_usdt := 1000, futures_volume_usdt := 1050,
                remaining_spot_coins := 0, remaining_futures_coins := 0,
                pnl_usdt := some 50 }) 4 90 95 2 = .ok (some (pr, adj)) ∧
      pr.remaining_spot_coins = -4 ∧ pr.status = PositionStatus.closed ∧
      pr.pnl_usdt = some 50 ∧ adj.pnl_usdt = 0 := by
  refine ⟨{ position_id := "pos-1", symbol := "BTC/USDT",
            status := PositionStatus.closed,
            spot_volume_coins := 10, futures_volume_coins := 10,
            spot_volume_usdt := 1000, futures_volume_usdt := 1050,
            remaining_spot_coins := -4, remaining_futures_coins := -4,
            pnl_usdt := some 50 },
          { position_id := "pos-1", adjustment_type := "partial_close", exit_spread := 2,
            spot_volume_coins := 4, futures_volume_coins := 4,
            spot_price := 90, futures_price := 95, pnl_usdt := 0 },
          ?_, rfl, rfl, rfl, rfl⟩
  norm_num [execute_exit_trade]

/-- C5: for every position row with nonzero entered leg volumes and every
exit, `_execute_exit_trade` succeeds with a PnL delta equal to
`(coins_to_close * spot_exit_price - proportional_spot_cost_basis)
+ (proportional_futures_value_basis - coins_to_close * futures_exit_price)`,
each basis being `entered_leg_usdt / entered_leg_coins * coins_to_close`;
the delta is recorded on the appended adjustment and accumulated into the
position's `pnl_usdt`. -/
theorem exit_pnl_delta_formula (p : PositionRow)
    (coins_to_close spot_avg_price futures_avg_price exit_spread_val : ℚ)
    (hs : p.spot_volume_coins ≠ 0) (hf : p.futures_volume_coins ≠ 0) :
    ∃ pr adj, execute_exit_trade (some p) coins_to_close spot_avg_price futures_avg_price
        exit_spread_val = .ok (some (pr, adj)) ∧
      adj.pnl_usdt =
        (coins_to_close * spot_avg_price -
            p.spot_volume_usdt / p.spot_volume_coins * coins_to_close) +
          (p.futures_volume_usdt / p.futures_volume_coins * coins_to_close -
            coins_to_close * futures_avg_price) ∧
      pr.pnl_usdt = some (p.pnl_usdt.getD 0 + adj.pnl_usdt) := by
  have hcond : ¬ (p.spot_volume_coins = 0 ∨ p.futures_volume_coins = 0) := by
    simp [hs, hf]
  simp only [execute_exit_trade]
  rw [if_neg hcond]
  exact ⟨_, _, rfl, rfl, rfl⟩

/-- Witness for C5: entered `10` coins per leg for `1000` / `1050` USDT,
remaining `6`, closing `4` coins at spot `103` and futures `104`. -/
theorem exit_pnl_delta_formula_witness :
    ∃ pr adj,
      execute_exit_trade
        (some { position_id := "pos-2", symbol := "ETH/USDT",
                status := PositionStatus.partiallyClosed,
                spot_volume_coins := 10, futures_volume_coins := 10,
                spot_volume_usdt := 1000, futures_volume_usdt := 1050,
                remaining_spot_coins := 6, remaining_futures_coins := 6,
                pnl_usdt := some 12 }) 4 103 104 7 = .ok (some (pr, adj)) ∧
      adj.pnl_usdt = (4 * 103 - 1000 / 10 * 4) + (1050 / 10 * 4 - 4 * 104) ∧
      pr.pnl_usdt = some ((some (12:ℚ)).getD 0 + adj.pnl_usdt) :=
  exit_pnl_delta_formula
    { position_id := "pos-2", symbol := "ETH/USDT",
      status := PositionStatus.partiallyClosed,
      spot_volume_coins := 10, futures_volume_coins := 10,
      spot_volume_usdt := 1000, futures_volume_usdt := 1050,
      remaining_spot_coins := 6, remaining_futures_coins := 6,
      pnl_usdt := some 12 } 4 103 104 7 (by norm_num) (by norm_num)

/-! ## Claims about the monitoring cycle -/

/-- Helper: the exit loop processes exactly the positions up to and
including the first one whose processing raises; everything after it is not
attempted in that cycle. -/
theorem check_exit_stops_at_first_error
    (fetch : String → String → Except PyErr OrderBook)
    (get_min_trade_amount : String → String → Except PyErr ℚ)
    (auto_trade : Bool) (spread_out : ℚ) (pairs : List PairConfig) :
    ∀ (ps₁ : List OpenPositionInfo) (p : OpenPositionInfo) (ps₂ : List OpenPositionInfo),
      (∀ q ∈ ps₁, ∃ v, process_position fetch get_min_trade_amount auto_trade spread_out
        pairs q = .ok v) →
      (∃ e, process_position fetch get_min_trade_amount auto_trade spread_out pairs p =
        .error e) →
      (check_exit_opportunities fetch get_min_trade_amount auto_trade spread_out pairs
        (ps₁ ++ p :: ps₂)).map Prod.fst =
        ps₁.map OpenPositionInfo.position_id ++ [p.position_id] := by
  intro ps₁
  induction ps₁ with
  | nil =>
    intro p ps₂ _ h2
    obtain ⟨e, he⟩ := h2
    simp [check_exit_opportunities, he]
  | cons q qs ih =>
    intro p ps₂ h1 h2
    obtain ⟨v, hv⟩ := h1 q (List.mem_cons_self _ _)
    have hqs : ∀ r ∈ qs, ∃ v, process_position fetch get_min_trade_amount auto_trade
        spread_out pairs r = .ok v := fun r hr => h1 r (List.mem_cons_of_mem _ hr)
    have hrec := ih p ps₂ hqs h2
    cases v with
    | none => simp [check_exit_opportunities, hv, hrec]
    | some w => simp [check_exit_opportunities, hv, hrec]

/-- C3 counterexample: with the concrete scenario - position `P1` on the
down exchange `exA`, position `P2` on the healthy exchange `exB` - the exit
check aborts at `P1`'s failed book fetch and never attempts `P2`, even
though `P2`'s books are available: the trace of the cycle is `[P1 errored]`
with no entry for `P2`. -/
theorem exit_loop_abort_counterexample :
    check_exit_opportunities fetchScenario getMinScenario true 5 [pairA, pairB]
      [posP1, posP2] = [("P1", .errored .gatewayError)] := by
  simp [check_exit_opportunities, process_position, posP1, pairA, pairB,
    fetchScenario, Bind.bind, Except.bind]

/-- C3 (amended): per-pair failure isolation holds - the arbitrage check
wraps each pair's body in its own handler, so every configured pair yields
an outcome and a failing pair does not prevent the others - but per-position
isolation does NOT hold: the exit check's handler wraps the whole loop, so
the positions after the first failing one are not processed in that
cycle. -/
theorem failure_isolation_pairs_not_positions
    (fetch : String → String → Except PyErr OrderBook)
    (get_min_trade_amount : String → String → Except PyErr ℚ)
    (has_open_position : String → Bool) (auto_trade : Bool)
    (spread_in spread_out lot_min : ℚ) (pairs : List PairConfig)
    (ps₁ : List OpenPositionInfo) (p : OpenPositionInfo) (ps₂ : List OpenPositionInfo)
    (h1 : ∀ q ∈ ps₁, ∃ v, process_position fetch get_min_trade_amount auto_trade spread_out
      pairs q = .ok v)
    (h2 : ∃ e, process_position fetch get_min_trade_amount auto_trade spread_out pairs p =
      .error e) :
    ((check_arbitrage_opportunities fetch has_open_position auto_trade spread_in lot_min
        pairs).map Prod.fst = pairs.map PairConfig.symbol) ∧
    ((check_exit_opportunities fetch get_min_trade_amount auto_trade spread_out pairs
        (ps₁ ++ p :: ps₂)).map Prod.fst =
      ps₁.map OpenPositionInfo.position_id ++ [p.position_id]) := by
  refine ⟨?_, check_exit_stops_at_first_error fetch get_min_trade_amount auto_trade
    spread_out pairs ps₁ p ps₂ h1 h2⟩
  simp [check_arbitrage_opportunities, List.map_map, Function.comp]

/-- Witness for C3 (amended) in the concrete scenario: pair `A`'s fetches
fail and pair `B`'s succeed; both pairs still yield an outcome, and pair `B`
is in fact evaluated to an entry opportunity and traded
(`opportunityOpened`); on the position side the cycle stops at `P1` and
never reaches `P2`. -/
theorem failure_isolation_witness :
    (((check_arbitrage_opportunities fetchScenario (fun _ => false) true 10 250
        [pairA, pairB]).map Prod.fst = [pairA, pairB].map PairConfig.symbol) ∧
      ((check_exit_opportunities fetchScenario getMinScenario true 5 [pairA, pairB]
          ([] ++ posP1 :: [posP2])).map Prod.fst =
        ([] : List OpenPositionInfo).map OpenPositionInfo.position_id ++
          [posP1.position_id])) ∧
    process_pair fetchScenario (fun _ => false) true 10 250 pairB =
      .ok (.opportunityOpened
        ⟨20, -200/11, 100, 99, 121, 120, 100, 120, 99, 121, 5/2, 250, true⟩) := by
  constructor
  · exact failure_isolation_pairs_not_positions fetchScenario getMinScenario
      (fun _ => false) true 10 5 250 [pairA, pairB] [] posP1 [posP2]
      (by simp)
      ⟨.gatewayError, by
        simp [process_position, posP1, pairA, pairB, fetchScenario, Bind.bind, Except.bind]⟩
  · have hstr1 : ¬ (("exB" : String) = "exA") := by decide
    have hstr2 : ¬ (("B/U" : String) = "B/U:F") := by decide
    norm_num [process_pair, pairB, fetchScenario, hstr1, hstr2, Bind.bind, Except.bind,
      calculate_entry_spread, bestPrice, calculate_weighted_spot_ask, walkNotionalLoop,
      calculate_weighted_futures_bid, calculate_weighted_futures_ask,
      calculate_weighted_spot_bid, calcWeightedByQuantity, walkQuantityLoop, zeroWalk]

/-- C4: for every open position whose pair is configured and whose book
fetches and minimum-trade-amount lookup all succeed, the per-position exit
check raises `TypeError`: engine.py line 258 calls `calculate_exit_spread`
with two arguments against three required parameters, so the exit spread is
never computed at the position's remaining coins, `should_close` is never
evaluated, and no exit is ever applied. -/
theorem exit_check_raises_type_error
    (fetch : String → String → Except PyErr OrderBook)
    (get_min_trade_amount : String → String → Except PyErr ℚ)
    (auto_trade : Bool) (spread_out : ℚ) (pairs : List PairConfig)
    (pos : OpenPositionInfo) (pc : PairConfig)
    (hfind : pairs.find? (fun p => p.symbol == pos.symbol) = some pc)
    (sob fob : OrderBook) (m : ℚ)
    (hs : fetch pos.spot_exchange pc.spot_symbol = .ok sob)
    (hf : fetch pos.futures_exchange pc.futures_symbol = .ok fob)
    (hm : get_min_trade_amount pos.spot_exchange pc.spot_symbol = .ok m) :
    process_position fetch get_min_trade_amount auto_trade spread_out pairs pos =
      .error .typeError := by
  simp [process_position, hfind, hs, hf, hm, calculate_exit_spread_call,
    Bind.bind, Except.bind]

/-- Witness for C4: position `P2` on the healthy exchange with its pair
configured; books and minimum amount all resolve, yet the exit check raises
`TypeError`. -/
theorem exit_check_raises_type_error_witness :
    process_position fetchScenario getMinScenario true 5 [pairA, pairB] posP2 =
      .error .typeError :=
  exit_check_raises_type_error fetchScenario getMinScenario true 5 [pairA, pairB]
    posP2 pairB (by simp [pairA, pairB, posP2])
    ⟨[(100, 10)], [(99, 10)]⟩ ⟨[(121, 10)], [(120, 10)]⟩ 1
    (by simp [fetchScenario, posP2, pairB])
    (by simp [fetchScenario, posP2, pairB])
    (by simp [getMinScenario])

end Arbitrage
